import Mathlib

/-!
Shallow embedding of the sprintify navigation core
(src/sprintify/navigation/rulers/base.py, rulers/item.py,
interaction/selection.py, interaction/interaction_item.py).

Coordinates, sizes and pixel positions are modelled as rationals (the
Python code computes with IEEE floats on the same straight-line formulas;
all claims are about the exact arithmetic of those formulas).  Python
`None`-able arguments and attributes become `Option`, Python truthiness
tests on numbers become explicit comparison with 0, and methods that
mutate `self` become functions from the state to the new state.
-/

namespace Sprintify

/-- Resize handle positions on an item (interaction_item.py, ResizeHandle). -/
inductive ResizeHandle where
  | left
  | right
  | top
  | bottom
  | topLeft
  | topRight
  | bottomLeft
  | bottomRight
deriving DecidableEq, Repr

/-- Interaction capabilities of an item (interaction_item.py, ItemCapabilities).
Per-item size constraints; `none` means use the manager's global defaults. -/
structure ItemCaps where
  canMove : Bool := true
  canResize : Bool := true
  minWidth : Option ℚ := none
  minHeight : Option ℚ := none
  maxWidth : Option ℚ := none
  maxHeight : Option ℚ := none
deriving DecidableEq, Repr

/-- Geometry and interaction state of an InteractiveItem
(interaction_item.py).  Only the fields the interaction pipeline reads or
writes are modelled; `data`, visuals and tooltips do not affect geometry. -/
structure Item where
  x : ℚ
  y : ℚ
  width : ℚ
  height : ℚ
  selected : Bool := false
  caps : ItemCaps := {}
deriving DecidableEq, Repr

/-- The (x, y, width, height) snapshot tuple used by DragDropManager. -/
def geom (it : Item) : ℚ × ℚ × ℚ × ℚ :=
  (it.x, it.y, it.width, it.height)

/-- Write a snapshot tuple back into an item
(selection.py line 284: item.x, item.y, item.width, item.height = state). -/
def setGeom (it : Item) (g : ℚ × ℚ × ℚ × ℚ) : Item :=
  { it with x := g.1, y := g.2.1, width := g.2.2.1, height := g.2.2.2 }

/-- Axis state of a ruler (rulers/base.py, BaseRuler attributes). -/
structure BaseRuler where
  windowStart : ℚ
  windowStop : ℚ
  visibleStart : ℚ
  visibleStop : ℚ
  windowLength : ℚ
  visibleLength : ℚ
  length : ℚ
  reverse : Bool
deriving DecidableEq, Repr

/-- Python truthiness fallback `a if a else b` applied to an optional
numeric argument: both `None` and `0` fall back to the default
(rulers/base.py lines 12 and 13). -/
def truthyOrElse (v : Option ℚ) (d : ℚ) : ℚ :=
  match v with
  | some x => if x = 0 then d else x
  | none => d

/-- BaseRuler.__init__ (rulers/base.py lines 8-17).  The constructor is
straight-line attribute assignment: it performs no validation and cannot
raise for numeric arguments. -/
def BaseRuler.init (windowStart windowStop length : ℚ)
    (visibleStart? visibleStop? : Option ℚ) (reverse : Bool) : BaseRuler :=
  let vs := truthyOrElse visibleStart? windowStart
  let vstop := truthyOrElse visibleStop? windowStop
  { windowStart := windowStart
    windowStop := windowStop
    visibleStart := vs
    visibleStop := vstop
    windowLength := windowStop - windowStart
    visibleLength := vstop - vs
    length := length
    reverse := reverse }

/-- BaseRuler.transform (rulers/base.py lines 19-25): data value to pixel. -/
def BaseRuler.transform (r : BaseRuler) (value : ℚ) : ℚ :=
  if r.reverse then (r.visibleStop - value) / r.visibleLength * r.length
  else (value - r.visibleStart) / r.visibleLength * r.length

/-- BaseRuler.get_value_at (rulers/base.py lines 27-33): pixel to data
value; the normalized position is clamped to [0, 1] first. -/
def BaseRuler.getValueAt (r : BaseRuler) (x : ℚ) : ℚ :=
  if r.reverse then r.visibleStop - max 0 (min 1 (x / r.length)) * r.visibleLength
  else r.visibleStart + max 0 (min 1 (x / r.length)) * r.visibleLength

/-- BaseRuler.get_delta_width (rulers/base.py lines 35-37). -/
def BaseRuler.getDeltaWidth (r : BaseRuler) (delta : ℚ) : ℚ :=
  r.visibleLength * (delta / r.length)

/-- BaseRuler.pan (rulers/base.py lines 57-64).  Only visible_start and
visible_stop are reassigned; the visible_length attribute is untouched. -/
def BaseRuler.pan (r : BaseRuler) (delta : ℚ) : BaseRuler :=
  let valueDelta := delta / r.length * r.visibleLength
  let vs :=
    if delta > 0 then max r.windowStart (r.visibleStart - valueDelta)
    else min (r.windowStop - r.visibleLength) (r.visibleStart - valueDelta)
  { r with visibleStart := vs, visibleStop := vs + r.visibleLength }

/-- ItemRuler state (rulers/item.py): a BaseRuler over window
[0, item_count] plus the pixels-per-item configuration. -/
structure ItemRuler extends BaseRuler where
  itemCount : ℕ
  defaultPpi : ℚ
  minPpi : ℚ
  maxPpi : ℚ
deriving DecidableEq, Repr

/-- ItemRuler.__init__ (rulers/item.py lines 15-35).  When neither bound
is given, the initial visible range is [0, min(max(1, length/default), item_count)];
like the base constructor it performs no validation of the ppi bounds. -/
def ItemRuler.init (itemCount : ℕ) (length : ℚ)
    (visibleStart? visibleStop? : Option ℚ) (reverse : Bool)
    (defaultPpi minPpi maxPpi : ℚ) : ItemRuler :=
  let pr :=
    if visibleStart?.isNone && visibleStop?.isNone then
      let visibleItems := max 1 (length / defaultPpi)
      ((some (0 : ℚ)), some (min visibleItems (itemCount : ℚ)))
    else (visibleStart?, visibleStop?)
  { toBaseRuler := BaseRuler.init 0 (itemCount : ℚ) length pr.1 pr.2 reverse
    itemCount := itemCount
    defaultPpi := defaultPpi
    minPpi := minPpi
    maxPpi := maxPpi }

/-- The clamped new pixels-per-item density computed by ItemRuler.zoom
(rulers/item.py lines 39-47). -/
def ItemRuler.newPpi (r : ItemRuler) (zoomIn : Bool) : ℚ :=
  let currentPpi := if r.visibleLength > 0 then r.length / r.visibleLength else r.defaultPpi
  let zoomFactor : ℚ := if zoomIn then 12 / 10 else 9 / 10
  max r.minPpi (min (currentPpi * zoomFactor) r.maxPpi)

/-- The new visible length computed by ItemRuler.zoom
(rulers/item.py lines 49-51). -/
def ItemRuler.newVisibleLength (r : ItemRuler) (zoomIn : Bool) : ℚ :=
  min (r.length / r.newPpi zoomIn) r.windowLength

/-- ItemRuler.zoom (rulers/item.py lines 37-68): density-clamped zoom,
keeping the value under the mouse fixed, then clamping the visible range
back into the window bounds (two sequential corrections). -/
def ItemRuler.zoom (r : ItemRuler) (zoomIn : Bool) (mousePos : ℚ) : ItemRuler :=
  let nvl := r.newVisibleLength zoomIn
  let valueAtMouse := r.toBaseRuler.getValueAt mousePos
  let offset :=
    if r.visibleLength > 0 then (valueAtMouse - r.visibleStart) / r.visibleLength
    else 1 / 2
  let vs0 := valueAtMouse - offset * nvl
  let p1 :=
    if vs0 < r.windowStart then (r.windowStart, r.windowStart + nvl)
    else (vs0, vs0 + nvl)
  let p2 :=
    if p1.2 > r.windowStop then (r.windowStop - nvl, r.windowStop)
    else p1
  { r with visibleStart := p2.1, visibleStop := p2.2, visibleLength := p2.2 - p2.1 }

/-- Result of the on_drag_update hook (selection.py lines 211-218).  The
Python hook returns a tuple; length >= 4 overrides the full geometry,
length 2 or 3 overrides only (x, y).  A falsy return (None, empty tuple)
is modelled by `Option.none` at the call site. -/
inductive Correction where
  | xy (x y : ℚ)
  | xywh (x y w h : ℚ)

/-- Caller-facing configuration of a DragDropManager (selection.py,
DragDropManager fields).  Snap callbacks are modelled in their item-aware
form (value, item) -> value; a position-only Python snap is the special
case that ignores its item argument, so the runtime signature inspection
of _apply_snap (lines 123-138) collapses to plain application. -/
structure DragConfig where
  canDrop : Option (List Item → Bool) := none
  onDragUpdate : Option (Item → Option Correction) := none
  snapCx : Option (ℚ → Item → ℚ) := none
  snapCy : Option (ℚ → Item → ℚ) := none
  snapResizeX : Option (ℚ → Item → ℚ) := none
  snapResizeY : Option (ℚ → Item → ℚ) := none
  minWidth : Option ℚ := none
  minHeight : Option ℚ := none
  maxWidth : Option ℚ := none
  maxHeight : Option ℚ := none

/-- Mutable state of a DragDropManager (selection.py lines 91-121).
`draggedItems` models the item objects referenced by the manager; writes
to it model in-place mutation of those objects. -/
structure DragState where
  dragging : Bool := false
  resizeMode : Option ResizeHandle := none
  draggedItems : List Item := []
  originalStates : List (ℚ × ℚ × ℚ × ℚ) := []
  dragStartPos : Option (ℚ × ℚ) := none
  lastValid : Bool := true

/-- DragDropManager._apply_snap (selection.py lines 123-138): `None`
means no snapping, otherwise apply the callback. -/
def applySnap (f? : Option (ℚ → Item → ℚ)) (v : ℚ) (it : Item) : ℚ :=
  match f? with
  | some f => f v it
  | none => v

/-- Python `a or b` on two optional callbacks
(selection.py lines 173-174: resize snaps fall back to the move snaps). -/
def orElseSnap (a b : Option (ℚ → Item → ℚ)) : Option (ℚ → Item → ℚ) :=
  match a with
  | some f => some f
  | none => b

/-- DragDropManager._apply_resize (selection.py lines 222-272).  Size
constraint resolution: per-item capability, else the manager's global
value, else the default minimum 0.1; max constraints are gated by Python
truthiness (`elif max_w and ...` / `if max_h:`), so a max of 0 is
ignored.  Clamping adjusts the delta (LEFT/TOP keep the far edge fixed);
RIGHT/BOTTOM only reassign the size.  Handles other than the four edges
have no branch and leave the item unchanged. -/
def applyResize (cfg : DragConfig) (it : Item) (handle : ResizeHandle)
    (dx dy ox oy ow oh : ℚ) : Item :=
  let minW :=
    (match it.caps.minWidth with
     | some m => some m
     | none => cfg.minWidth).getD (1 / 10)
  let minH :=
    (match it.caps.minHeight with
     | some m => some m
     | none => cfg.minHeight).getD (1 / 10)
  let maxW :=
    match it.caps.maxWidth with
    | some m => some m
    | none => cfg.maxWidth
  let maxH :=
    match it.caps.maxHeight with
    | some m => some m
    | none => cfg.maxHeight
  match handle with
  | ResizeHandle.left =>
    let newWidth := ow - dx
    if newWidth < minW then
      { it with x := ox + (ow - minW), width := minW }
    else
      match maxW with
      | some m =>
        if m ≠ 0 ∧ newWidth > m then { it with x := ox + (ow - m), width := m }
        else { it with x := ox + dx, width := newWidth }
      | none => { it with x := ox + dx, width := newWidth }
  | ResizeHandle.right =>
    let newWidth := ow + dx
    (match maxW with
     | some m =>
       if m ≠ 0 then { it with width := min m (max minW newWidth) }
       else { it with width := max minW newWidth }
     | none => { it with width := max minW newWidth })
  | ResizeHandle.top =>
    let newHeight := oh - dy
    if newHeight < minH then
      { it with y := oy + (oh - minH), height := minH }
    else
      match maxH with
      | some m =>
        if m ≠ 0 ∧ newHeight > m then { it with y := oy + (oh - m), height := m }
        else { it with y := oy + dy, height := newHeight }
      | none => { it with y := oy + dy, height := newHeight }
  | ResizeHandle.bottom =>
    let newHeight := oh + dy
    (match maxH with
     | some m =>
       if m ≠ 0 then { it with height := min m (max minH newHeight) }
       else { it with height := max minH newHeight }
     | none => { it with height := max minH newHeight })
  | _ => it

/-- The per-item body of DragDropManager.update_drag
(selection.py lines 168-218): resize with snapped edge delta, or move
with snapped target position, then the optional on_drag_update override. -/
def dragItemStep (cfg : DragConfig) (mode : Option ResizeHandle)
    (rawDx rawDy : ℚ) (it : Item) (os : ℚ × ℚ × ℚ × ℚ) : Item :=
  let ox := os.1
  let oy := os.2.1
  let ow := os.2.2.1
  let oh := os.2.2.2
  let it1 :=
    match mode with
    | some ResizeHandle.left =>
      let newX := applySnap (orElseSnap cfg.snapResizeX cfg.snapCx) (ox + rawDx) it
      applyResize cfg it ResizeHandle.left (newX - ox) 0 ox oy ow oh
    | some ResizeHandle.right =>
      let newX := applySnap (orElseSnap cfg.snapResizeX cfg.snapCx) (ox + ow + rawDx) it
      applyResize cfg it ResizeHandle.right (newX - (ox + ow)) 0 ox oy ow oh
    | some ResizeHandle.top =>
      let newY := applySnap (orElseSnap cfg.snapResizeY cfg.snapCy) (oy + rawDy) it
      applyResize cfg it ResizeHandle.top 0 (newY - oy) ox oy ow oh
    | some ResizeHandle.bottom =>
      let newY := applySnap (orElseSnap cfg.snapResizeY cfg.snapCy) (oy + oh + rawDy) it
      applyResize cfg it ResizeHandle.bottom 0 (newY - (oy + oh)) ox oy ow oh
    | some _ => it
    | none =>
      let tx := applySnap cfg.snapCx (ox + rawDx) it
      let ty := applySnap cfg.snapCy (oy + rawDy) it
      { it with x := tx, y := ty }
  match cfg.onDragUpdate with
  | none => it1
  | some hook =>
    match hook it1 with
    | none => it1
    | some (Correction.xy a b) => { it1 with x := a, y := b }
    | some (Correction.xywh a b c d) => { it1 with x := a, y := b, width := c, height := d }

/-- Evaluate the can_drop predicate as update_drag/start_drag do
(selection.py lines 152 and 220): absent predicate means valid. -/
def evalCanDrop (cfg : DragConfig) (items : List Item) : Bool :=
  match cfg.canDrop with
  | some f => f items
  | none => true

/-- DragDropManager.start_drag (selection.py lines 140-152): snapshot
every item's (x, y, width, height) and cache initial validity. -/
def startDrag (cfg : DragConfig) (items : List Item) (pos : ℚ × ℚ)
    (resizeHandle : Option ResizeHandle) : DragState :=
  { dragging := true
    resizeMode := resizeHandle
    draggedItems := items
    originalStates := items.map geom
    dragStartPos := some pos
    lastValid := evalCanDrop cfg items }

/-- DragDropManager.update_drag (selection.py lines 154-220): compute the
data-space deltas since press through the rulers, rewrite every dragged
item from its snapshot, and re-cache validity.  originalStates is never
written. -/
def updateDrag (cfg : DragConfig) (pos : ℚ × ℚ) (xr yr : BaseRuler)
    (st : DragState) : DragState :=
  if st.dragging = false then st
  else
    match st.dragStartPos with
    | none => st
    | some p0 =>
      let rawDx := xr.getValueAt pos.1 - xr.getValueAt p0.1
      let rawDy := yr.getValueAt pos.2 - yr.getValueAt p0.2
      let newItems :=
        (st.draggedItems.zip st.originalStates).map
          (fun p => dragItemStep cfg st.resizeMode rawDx rawDy p.1 p.2)
      { st with draggedItems := newItems, lastValid := evalCanDrop cfg newItems }

/-- Clearing of the transient drag state at the end of end_drag
(selection.py lines 288-292 and 298-302). -/
def clearDrag (st : DragState) : DragState :=
  { st with dragging := false, draggedItems := [], originalStates := [],
            dragStartPos := none, resizeMode := none }

/-- DragDropManager.end_drag (selection.py lines 274-303).  Returns the
success flag, the final geometries of the item objects that were being
dragged (items_to_drop as observed by the caller after the call), and the
new manager state.  On rejection every dragged item is written back from
its snapshot before the state is cleared. -/
def endDrag (cfg : DragConfig) (st : DragState) : Bool × List Item × DragState :=
  if st.dragging = false then (false, st.draggedItems, st)
  else
    let itemsToDrop := st.draggedItems
    if evalCanDrop cfg itemsToDrop = false then
      let restored :=
        (st.draggedItems.zip st.originalStates).map (fun p => setGeom p.1 p.2)
      (false, restored, clearDrag { st with draggedItems := restored })
    else
      (true, itemsToDrop, clearDrag st)

/-- One update_drag call: the mouse position and the two rulers passed in
by InteractionHandler._move. -/
structure UpdateCall where
  pos : ℚ × ℚ
  xr : BaseRuler
  yr : BaseRuler

/-- A sequence of update_drag calls applied in order. -/
def applyUpdates (cfg : DragConfig) (us : List UpdateCall) (st : DragState) : DragState :=
  us.foldl (fun s u => updateDrag cfg u.pos u.xr u.yr s) st

/-- Selection and band state of InteractionHandler/SelectionManager as
seen by _update_band (selection.py).  Item objects live in `items`;
the selected set holds references, modelled as indices into `items`. -/
structure BandState where
  items : List Item
  selectedIdx : List ℕ
  banding : Bool := true
  bandStart : Option (ℚ × ℚ) := none
  bandEnd : Option (ℚ × ℚ) := none

/-- The band-intersection test of _update_band (selection.py lines
916-919 and 929-932): an item fails the test exactly when it lies
strictly outside the normalized band rectangle. -/
def bandIntersects (it : Item) (x1 x2 y1 y2 : ℚ) : Bool :=
  if it.x > x2 ∨ it.x + it.width < x1 ∨ it.y > y2 ∨ it.y + it.height < y1 then false
  else true

/-- Map over a list with the element index. -/
def mapWithIndex (f : ℕ → Item → Item) (l : List Item) : List Item :=
  ((List.range l.length).zip l).map (fun p => f p.1 p.2)

/-- The two loops of InteractionHandler._update_band over normalized band
bounds (selection.py lines 912-936).  First loop: every member of the
selected set that does not intersect the band is discarded and gets
selected := false (the set holds object references, so membership lookup
never fails; an out-of-range index is treated as not intersecting).
Second loop: every item of the handler that intersects the band is added
to the set with selected := true. -/
def updateBandCore (x1 x2 y1 y2 : ℚ) (st : BandState) : BandState :=
  let idxInBand := fun (i : ℕ) =>
    match st.items[i]? with
    | some it => bandIntersects it x1 x2 y1 y2
    | none => false
  let sel1 := st.selectedIdx.filter (fun i => idxInBand i)
  let items1 :=
    mapWithIndex
      (fun i it =>
        if st.selectedIdx.contains i && !bandIntersects it x1 x2 y1 y2 then
          { it with selected := false }
        else it)
      st.items
  let items2 :=
    items1.map (fun it => if bandIntersects it x1 x2 y1 y2 then { it with selected := true } else it)
  let sel2 :=
    sel1 ++ (List.range st.items.length).filter (fun i => idxInBand i && !sel1.contains i)
  { st with items := items2, selectedIdx := sel2 }

/-- InteractionHandler._update_band (selection.py lines 893-936): guard
on banding state, convert the band corners to data coordinates through
the rulers, normalize so x1 <= x2 and y1 <= y2, then recompute the
selection. -/
def updateBand (xr yr : BaseRuler) (st : BandState) : BandState :=
  if st.banding = false then st
  else
    match st.bandStart, st.bandEnd with
    | some bs, some be =>
      let x1 := xr.getValueAt bs.1
      let x2 := xr.getValueAt be.1
      let y1 := yr.getValueAt bs.2
      let y2 := yr.getValueAt be.2
      let px := if x1 > x2 then (x2, x1) else (x1, x2)
      let py := if y1 > y2 then (y2, y1) else (y1, y2)
      updateBandCore px.1 px.2 py.1 py.2 st
    | _, _ => st

/-- Caller-owned data object as observed by InteractiveItem.sync_to_data
(interaction_item.py lines 171-197).  Each field is `some v` when the
Python object has that attribute (hasattr succeeds) with value v, `none`
when it does not. -/
structure DataObj where
  x : Option ℚ := none
  y : Option ℚ := none
  width : Option ℚ := none
  height : Option ℚ := none
  start : Option ℚ := none
  duration : Option ℚ := none
  employeeId : Option ℤ := none
deriving DecidableEq, Repr

/-- Python round() (round half to even) followed by int(), as used on
line 197 of interaction_item.py. -/
def pythonRound (q : ℚ) : ℤ :=
  let f := ⌊q⌋
  let rem := q - (f : ℚ)
  if rem < 1 / 2 then f
  else if 1 / 2 < rem then f + 1
  else if f % 2 = 0 then f else f + 1

/-- The no-callback branch of InteractiveItem.sync_to_data
(interaction_item.py lines 180-197): reflection-based fallback that
assigns the item geometry to every common attribute the data object
happens to have (x, y, width, height, then start, duration,
employee_id).  The isinstance guard on employee_id is always satisfied in
this numeric model. -/
def Item.syncToDataFallback (it : Item) (d : DataObj) : DataObj :=
  let d := match d.x with
    | some _ => { d with x := some it.x }
    | none => d
  let d := match d.y with
    | some _ => { d with y := some it.y }
    | none => d
  let d := match d.width with
    | some _ => { d with width := some it.width }
    | none => d
  let d := match d.height with
    | some _ => { d with height := some it.height }
    | none => d
  let d := match d.start with
    | some _ => { d with start := some it.x }
    | none => d
  let d := match d.duration with
    | some _ => { d with duration := some it.width }
    | none => d
  let d := match d.employeeId with
    | some _ => { d with employeeId := some (pythonRound it.y) }
    | none => d
  d

/-- InteractiveItem.sync_to_data (interaction_item.py lines 171-197):
with a callback the callback alone runs (its mutation of the data object
is modelled by its return value); with no callback the attribute-guessing
fallback runs. -/
def Item.syncToData (it : Item)
    (cb? : Option (DataObj → ℚ → ℚ → ℚ → ℚ → DataObj)) (d : DataObj) : DataObj :=
  match cb? with
  | some cb => cb d it.x it.y it.width it.height
  | none => it.syncToDataFallback d

/-! ## Ruler lemmas and claim theorems -/

/-- The visible start written by pan, as an if-expression. -/
lemma pan_visibleStart (r : BaseRuler) (delta : ℚ) :
    (r.pan delta).visibleStart =
      if delta > 0 then max r.windowStart (r.visibleStart - delta / r.length * r.visibleLength)
      else min (r.windowStop - r.visibleLength) (r.visibleStart - delta / r.length * r.visibleLength) := by
  unfold BaseRuler.pan
  split_ifs <;> rfl

/-- Pan never reassigns the visible_length attribute. -/
lemma pan_visibleLength (r : BaseRuler) (delta : ℚ) :
    (r.pan delta).visibleLength = r.visibleLength := rfl

/-- Round trip through the pixel axis is exact for values inside the
visible range: get_value_at inverts transform there. -/
lemma getValueAt_transform (r : BaseRuler) (v : ℚ)
    (hvl : 0 < r.visibleLength) (hL : 0 < r.length)
    (hrel : r.visibleStop - r.visibleStart = r.visibleLength)
    (h1 : r.visibleStart ≤ v) (h2 : v ≤ r.visibleStop) :
    r.getValueAt (r.transform v) = v := by
  cases hr : r.reverse with
  | false =>
    simp only [BaseRuler.transform, BaseRuler.getValueAt, hr, Bool.false_eq_true, if_false]
    have hcan : (v - r.visibleStart) / r.visibleLength * r.length / r.length =
        (v - r.visibleStart) / r.visibleLength := mul_div_cancel_right₀ _ (ne_of_gt hL)
    rw [hcan]
    have ht0 : 0 ≤ (v - r.visibleStart) / r.visibleLength :=
      div_nonneg (by linarith) hvl.le
    have ht1 : (v - r.visibleStart) / r.visibleLength ≤ 1 :=
      (div_le_one hvl).mpr (by linarith)
    rw [min_eq_right ht1, max_eq_right ht0, div_mul_cancel₀ _ (ne_of_gt hvl)]
    ring
  | true =>
    simp only [BaseRuler.transform, BaseRuler.getValueAt, hr, if_true]
    have hcan : (r.visibleStop - v) / r.visibleLength * r.length / r.length =
        (r.visibleStop - v) / r.visibleLength := mul_div_cancel_right₀ _ (ne_of_gt hL)
    rw [hcan]
    have ht0 : 0 ≤ (r.visibleStop - v) / r.visibleLength :=
      div_nonneg (by linarith) hvl.le
    have ht1 : (r.visibleStop - v) / r.visibleLength ≤ 1 :=
      (div_le_one hvl).mpr (by linarith)
    rw [min_eq_right ht1, max_eq_right ht0, div_mul_cancel₀ _ (ne_of_gt hvl)]
    ring

/-- C1: for every ruler satisfying the data-model invariants and every
value v inside the visible range, transform(get_value_at(transform(v)))
equals transform(v) exactly (hence within any floating tolerance), for
both orientations of the reverse flag. -/
theorem c1_round_trip (r : BaseRuler) (v : ℚ)
    (hvl : 0 < r.visibleLength) (hL : 0 < r.length)
    (hrel : r.visibleStop - r.visibleStart = r.visibleLength)
    (h1 : r.visibleStart ≤ v) (h2 : v ≤ r.visibleStop) :
    r.transform (r.getValueAt (r.transform v)) = r.transform v := by
  rw [getValueAt_transform r v hvl hL hrel h1 h2]

/-- Witness for C1: the round trip holds at v = 50 on the concrete ruler
with window [0, 100], visible [20, 80], length 100, in both the forward
and the reversed orientation. -/
theorem c1_round_trip_witness :
    ((BaseRuler.init 0 100 100 (some 20) (some 80) false).transform
        ((BaseRuler.init 0 100 100 (some 20) (some 80) false).getValueAt
          ((BaseRuler.init 0 100 100 (some 20) (some 80) false).transform 50)) =
      (BaseRuler.init 0 100 100 (some 20) (some 80) false).transform 50) ∧
    ((BaseRuler.init 0 100 100 (some 20) (some 80) true).transform
        ((BaseRuler.init 0 100 100 (some 20) (some 80) true).getValueAt
          ((BaseRuler.init 0 100 100 (some 20) (some 80) true).transform 50)) =
      (BaseRuler.init 0 100 100 (some 20) (some 80) true).transform 50) :=
  ⟨c1_round_trip _ 50 (by norm_num [BaseRuler.init, truthyOrElse])
      (by norm_num [BaseRuler.init, truthyOrElse])
      (by norm_num [BaseRuler.init, truthyOrElse])
      (by norm_num [BaseRuler.init, truthyOrElse])
      (by norm_num [BaseRuler.init, truthyOrElse]),
   c1_round_trip _ 50 (by norm_num [BaseRuler.init, truthyOrElse])
      (by norm_num [BaseRuler.init, truthyOrElse])
      (by norm_num [BaseRuler.init, truthyOrElse])
      (by norm_num [BaseRuler.init, truthyOrElse])
      (by norm_num [BaseRuler.init, truthyOrElse])⟩

/-- The concrete ruler of the C6 scenario: window [0, 100], visible
[20, 80], length 100, forward orientation. -/
def rulerC6 : BaseRuler := BaseRuler.init 0 100 100 (some 20) (some 80) false

/-- C6 counterexample: on the scenario ruler the code yields
transform(50) = 50, not 60, and get_value_at(60) = 56, not 50. -/
theorem c6_scenario_counterexample :
    rulerC6.transform 50 = 50 ∧ ¬rulerC6.transform 50 = 60 ∧
    rulerC6.getValueAt 60 = 56 ∧ ¬rulerC6.getValueAt 60 = 50 := by
  norm_num [rulerC6, BaseRuler.init, truthyOrElse, BaseRuler.transform,
    BaseRuler.getValueAt, min_def, max_def]

/-- C6 amended: for the ruler with window [0, 100], visible [20, 80] and
length 100, transform(50) = 50 and get_value_at(50) = 50 (value 50 is the
fixed point of the round trip; pixel 60 maps back to value 56). -/
theorem c6_scenario_amended :
    rulerC6.transform 50 = 50 ∧ rulerC6.getValueAt 50 = 50 ∧
    rulerC6.getValueAt 60 = 56 := by
  norm_num [rulerC6, BaseRuler.init, truthyOrElse, BaseRuler.transform,
    BaseRuler.getValueAt, min_def, max_def]

/-- C7 counterexample: both constructors accept invalid configurations
without any error.  BaseRuler built with window_stop = window_start and
negative length simply stores them; ItemRuler built with
min_pixels_per_item = 100 > max_pixels_per_item = 10 simply stores them.
In the source both constructors are straight-line attribute assignments
with no validation and no raise statement. -/
theorem c7_no_validation_counterexample :
    ((BaseRuler.init 0 0 (-1) none none false).windowStop ≤
        (BaseRuler.init 0 0 (-1) none none false).windowStart ∧
      (BaseRuler.init 0 0 (-1) none none false).length = -1 ∧
      (BaseRuler.init 0 0 (-1) none none false).windowLength = 0) ∧
    ((ItemRuler.init 5 300 none none false 30 100 10).minPpi = 100 ∧
      (ItemRuler.init 5 300 none none false 30 100 10).maxPpi = 10) := by
  norm_num [BaseRuler.init, ItemRuler.init, truthyOrElse, min_def, max_def]

/-- C7 amended: ruler construction performs no validation at all: every
argument combination is accepted, the constructor is total and stores the
supplied window bounds, length and pixel-per-item bounds unchanged, so
invalid configurations (window_stop <= window_start, non-positive length,
min > max or non-positive ppi bounds) produce a ruler object silently
instead of failing fast. -/
theorem c7_init_total_no_validation (ws wstop L : ℚ) (vs? vstop? : Option ℚ)
    (rev : Bool) (n : ℕ) (len2 dpi mn mx : ℚ) :
    (BaseRuler.init ws wstop L vs? vstop? rev).windowStart = ws ∧
    (BaseRuler.init ws wstop L vs? vstop? rev).windowStop = wstop ∧
    (BaseRuler.init ws wstop L vs? vstop? rev).length = L ∧
    (BaseRuler.init ws wstop L vs? vstop? rev).windowLength = wstop - ws ∧
    (ItemRuler.init n len2 vs? vstop? rev dpi mn mx).minPpi = mn ∧
    (ItemRuler.init n len2 vs? vstop? rev dpi mn mx).maxPpi = mx :=
  ⟨rfl, rfl, rfl, rfl, rfl, rfl⟩

/-- C9: panning by any pixel delta keeps visible_start inside
[window_start, window_stop - visible_length] and leaves visible_length
unchanged, whenever the ruler satisfies the visible-inside-window
invariant with positive visible_length and length. -/
theorem c9_pan_clamped (r : BaseRuler) (delta : ℚ)
    (hvl : 0 < r.visibleLength) (hL : 0 < r.length)
    (hlo : r.windowStart ≤ r.visibleStart)
    (hhi : r.visibleStart + r.visibleLength ≤ r.windowStop) :
    r.windowStart ≤ (r.pan delta).visibleStart ∧
    (r.pan delta).visibleStart ≤ r.windowStop - r.visibleLength ∧
    (r.pan delta).visibleLength = r.visibleLength := by
  rw [pan_visibleStart, pan_visibleLength]
  by_cases hd : delta > 0
  · rw [if_pos hd]
    have hvd : 0 < delta / r.length * r.visibleLength :=
      mul_pos (div_pos hd hL) hvl
    refine ⟨le_max_left _ _, max_le (by linarith) (by linarith), rfl⟩
  · rw [if_neg hd]
    have hdel : delta ≤ 0 := not_lt.mp hd
    have hq : delta / r.length ≤ 0 :=
      div_nonpos_iff.mpr (Or.inr ⟨hdel, hL.le⟩)
    have hvd : delta / r.length * r.visibleLength ≤ 0 :=
      mul_nonpos_of_nonpos_of_nonneg hq hvl.le
    refine ⟨le_min (by linarith) (by linarith), min_le_left _ _, rfl⟩

/-- Witness for C9: pan by +37 pixels on the ruler with window [0, 100],
visible [20, 80], length 100 keeps the invariants. -/
theorem c9_pan_clamped_witness :
    (0 : ℚ) ≤ ((BaseRuler.init 0 100 100 (some 20) (some 80) false).pan 37).visibleStart ∧
    ((BaseRuler.init 0 100 100 (some 20) (some 80) false).pan 37).visibleStart ≤
      (BaseRuler.init 0 100 100 (some 20) (some 80) false).windowStop -
        (BaseRuler.init 0 100 100 (some 20) (some 80) false).visibleLength ∧
    ((BaseRuler.init 0 100 100 (some 20) (some 80) false).pan 37).visibleLength =
      (BaseRuler.init 0 100 100 (some 20) (some 80) false).visibleLength :=
  c9_pan_clamped (BaseRuler.init 0 100 100 (some 20) (some 80) false) 37
    (by norm_num [BaseRuler.init, truthyOrElse])
    (by norm_num [BaseRuler.init, truthyOrElse])
    (by norm_num [BaseRuler.init, truthyOrElse])
    (by norm_num [BaseRuler.init, truthyOrElse])

/-- C10: a visible_start argument of 0 is falsy in Python, so the
constructor silently replaces it with window_start; over the window
[-50, 50] the caller gets visible_start = -50 instead of 0. -/
theorem c10_zero_visible_start_falls_back (ws wstop L : ℚ) (vstop? : Option ℚ) (rev : Bool) :
    (BaseRuler.init ws wstop L (some 0) vstop? rev).visibleStart = ws ∧
    (BaseRuler.init ws wstop L none (some 0) rev).visibleStop = wstop ∧
    (BaseRuler.init (-50) 50 1 (some 0) none false).visibleStart = -50 := by
  refine ⟨?_, ?_, by norm_num [BaseRuler.init, truthyOrElse]⟩
  · simp [BaseRuler.init, truthyOrElse]
  · simp [BaseRuler.init, truthyOrElse]

/-- After zoom the visible length is exactly the density-clamped,
window-clamped new visible length: every branch of the two window-bound
corrections keeps the distance visible_stop - visible_start equal to it. -/
lemma zoom_visibleLength (r : ItemRuler) (zoomIn : Bool) (mousePos : ℚ) :
    (r.zoom zoomIn mousePos).visibleLength = r.newVisibleLength zoomIn := by
  unfold ItemRuler.zoom
  dsimp only
  split_ifs <;> ring

/-- Zoom never touches the window bounds, the pixel length or the
pixels-per-item configuration. -/
lemma zoom_constants (r : ItemRuler) (zoomIn : Bool) (mousePos : ℚ) :
    (r.zoom zoomIn mousePos).windowLength = r.windowLength ∧
    (r.zoom zoomIn mousePos).length = r.length ∧
    (r.zoom zoomIn mousePos).minPpi = r.minPpi ∧
    (r.zoom zoomIn mousePos).maxPpi = r.maxPpi := by
  unfold ItemRuler.zoom
  exact ⟨rfl, rfl, rfl, rfl⟩

/-- C3 counterexample: a validly configured ItemRuler (item_count = 1,
length = 1000, min = 10 <= max = 100, all positive) whose pixel length
exceeds max_pixels_per_item * item_count: after zoom(zoom_in=true,
mouse_pos=0) the pixel density length / visible_length is 1000, far above
max_pixels_per_item = 100, because the window-length clamp on the new
visible length runs after the density clamp and shrinks the visible
range below length / max_pixels_per_item. -/
theorem c3_density_counterexample :
    0 < (ItemRuler.init 1 1000 none none false 30 10 100).minPpi ∧
    (ItemRuler.init 1 1000 none none false 30 10 100).minPpi ≤
      (ItemRuler.init 1 1000 none none false 30 10 100).maxPpi ∧
    ((ItemRuler.init 1 1000 none none false 30 10 100).zoom true 0).length /
      ((ItemRuler.init 1 1000 none none false 30 10 100).zoom true 0).visibleLength = 1000 ∧
    ¬(((ItemRuler.init 1 1000 none none false 30 10 100).zoom true 0).length /
        ((ItemRuler.init 1 1000 none none false 30 10 100).zoom true 0).visibleLength ≤
      ((ItemRuler.init 1 1000 none none false 30 10 100).zoom true 0).maxPpi) := by
  norm_num [ItemRuler.init, ItemRuler.zoom, ItemRuler.newVisibleLength, ItemRuler.newPpi,
    BaseRuler.init, BaseRuler.getValueAt, truthyOrElse, min_def, max_def]

/-- C3 amended: from any state with a positive window, positive pixel
length and valid ppi configuration (0 < min <= max), zoom keeps
visible_length at most window_length and keeps the pixel density
length / visible_length at least min_pixels_per_item; the density stays
at most max(max_pixels_per_item, length / window_length) — it can exceed
max_pixels_per_item exactly when the window itself is too short for the
configured maximum density. -/
theorem c3_zoom_density (r : ItemRuler) (zoomIn : Bool) (mousePos : ℚ)
    (hwl : 0 < r.windowLength) (hL : 0 < r.length)
    (hmin : 0 < r.minPpi) (hmm : r.minPpi ≤ r.maxPpi) :
    (r.zoom zoomIn mousePos).visibleLength ≤ r.windowLength ∧
    r.minPpi ≤ r.length / (r.zoom zoomIn mousePos).visibleLength ∧
    r.length / (r.zoom zoomIn mousePos).visibleLength ≤
      max r.maxPpi (r.length / r.windowLength) := by
  have hppi_lo : r.minPpi ≤ r.newPpi zoomIn := by
    unfold ItemRuler.newPpi
    exact le_max_left _ _
  have hppi_hi : r.newPpi zoomIn ≤ r.maxPpi := by
    unfold ItemRuler.newPpi
    exact max_le hmm (min_le_right _ _)
  have hppi_pos : 0 < r.newPpi zoomIn := lt_of_lt_of_le hmin hppi_lo
  have hnvl_pos : 0 < r.newVisibleLength zoomIn :=
    lt_min (div_pos hL hppi_pos) hwl
  rw [zoom_visibleLength]
  refine ⟨min_le_right _ _, ?_, ?_⟩
  · rw [le_div_iff₀ hnvl_pos]
    have h1 : r.newVisibleLength zoomIn ≤ r.length / r.newPpi zoomIn :=
      min_le_left _ _
    have h2 : r.newVisibleLength zoomIn * r.newPpi zoomIn ≤ r.length :=
      (le_div_iff₀ hppi_pos).mp h1
    nlinarith [hnvl_pos.le, hppi_lo]
  · rcases le_total (r.length / r.newPpi zoomIn) r.windowLength with hc | hc
    · rw [ItemRuler.newVisibleLength, min_eq_left hc]
      have hself : r.length / (r.length / r.newPpi zoomIn) = r.newPpi zoomIn := by
        rw [div_div_eq_mul_div, mul_comm, mul_div_assoc, div_self (ne_of_gt hL), mul_one]
      rw [hself]
      exact le_max_of_le_left hppi_hi
    · rw [ItemRuler.newVisibleLength, min_eq_right hc]
      exact le_max_right _ _

/-- Witness for C3 (amended): the spec scenario ItemRuler(item_count=10,
length=300, default=30, min=10, max=100) zoomed in at pixel 0 keeps all
three bounds. -/
theorem c3_zoom_density_witness :
    ((ItemRuler.init 10 300 none none false 30 10 100).zoom true 0).visibleLength ≤
      (ItemRuler.init 10 300 none none false 30 10 100).windowLength ∧
    (ItemRuler.init 10 300 none none false 30 10 100).minPpi ≤
      (ItemRuler.init 10 300 none none false 30 10 100).length /
        ((ItemRuler.init 10 300 none none false 30 10 100).zoom true 0).visibleLength ∧
    (ItemRuler.init 10 300 none none false 30 10 100).length /
        ((ItemRuler.init 10 300 none none false 30 10 100).zoom true 0).visibleLength ≤
      max (ItemRuler.init 10 300 none none false 30 10 100).maxPpi
        ((ItemRuler.init 10 300 none none false 30 10 100).length /
          (ItemRuler.init 10 300 none none false 30 10 100).windowLength) :=
  c3_zoom_density (ItemRuler.init 10 300 none none false 30 10 100) true 0
    (by norm_num [ItemRuler.init, BaseRuler.init, truthyOrElse])
    (by norm_num [ItemRuler.init, BaseRuler.init, truthyOrElse])
    (by norm_num [ItemRuler.init, BaseRuler.init, truthyOrElse])
    (by norm_num [ItemRuler.init, BaseRuler.init, truthyOrElse])

/-- A data object that has an x attribute (value 0), as in the C8
counterexample. -/
def dataC8 : DataObj := { x := some 0 }

/-- The item geometry used in the C8 counterexample. -/
def itemC8 : Item := { x := 7, y := 8, width := 9, height := 10 }

/-- C8 counterexample: calling sync_to_data with no callback on a data
object that has an x attribute overwrites it with the item geometry
(data.x becomes 7); the data object is not left unchanged. -/
theorem c8_fallback_counterexample :
    itemC8.syncToData none dataC8 ≠ dataC8 ∧
    (itemC8.syncToData none dataC8).x = some 7 ∧ dataC8.x = some 0 := by
  refine ⟨?_, rfl, rfl⟩
  intro h
  have hx := congrArg DataObj.x h
  simp [itemC8, dataC8, Item.syncToData, Item.syncToDataFallback] at hx

/-- C8 amended: sync_to_data uses a caller-supplied mapping only when one
is given; with no callback it falls back to reflection over the common
attribute names, assigning x, y, width, height, start := x,
duration := width and employee_id := round(y) on every data object that
has the corresponding attribute, and leaves a field unchanged only when
the attribute is absent. -/
theorem c8_fallback_guesses_fields (it : Item) (d : DataObj)
    (cb : DataObj → ℚ → ℚ → ℚ → ℚ → DataObj) :
    it.syncToData (some cb) d = cb d it.x it.y it.width it.height ∧
    (it.syncToData none d).x = d.x.map (fun _ => it.x) ∧
    (it.syncToData none d).y = d.y.map (fun _ => it.y) ∧
    (it.syncToData none d).width = d.width.map (fun _ => it.width) ∧
    (it.syncToData none d).height = d.height.map (fun _ => it.height) ∧
    (it.syncToData none d).start = d.start.map (fun _ => it.x) ∧
    (it.syncToData none d).duration = d.duration.map (fun _ => it.width) ∧
    (it.syncToData none d).employeeId = d.employeeId.map (fun _ => pythonRound it.y) := by
  refine ⟨rfl, ?_⟩
  show _ ∧ _ ∧ _ ∧ _ ∧ _ ∧ _ ∧ _
  obtain ⟨dx, dy, dw, dh, ds, du, de⟩ := d
  simp only [Item.syncToData, Item.syncToDataFallback]
  cases dx <;> cases dy <;> cases dw <;> cases dh <;> cases ds <;> cases du <;> cases de <;>
    exact ⟨rfl, rfl, rfl, rfl, rfl, rfl, rfl⟩

/-- The identity-style ruler used for the C5 failing input: window and
visible range both [0, 100], pixel length 100, so pixel p maps to data
value p on [0, 100]. -/
def identRulerC5 : BaseRuler := BaseRuler.init 0 100 100 none none false

/-- Item A of the C5 failing input, inside the band. -/
def bandItemA : Item := { x := 0, y := 0, width := 10, height := 10 }

/-- Item C of the C5 failing input: selected by shift-click before
banding began, far outside the band. -/
def bandItemC : Item := { x := 100, y := 100, width := 10, height := 10, selected := true }

/-- The C5 failing input: C (index 1) is in the selected set from a click
made before banding; the band covers only the region around A. -/
def bandStateC5 : BandState :=
  { items := [bandItemA, bandItemC], selectedIdx := [1], banding := true,
    bandStart := some (0, 0), bandEnd := some (20, 20) }

/-- C5 evaluated at the failing input: _update_band removes the
click-selected item C (outside the band) from the selection and clears
its selected flag, while selecting A — the first loop of _update_band
deselects every selected item outside the band no matter how it was
selected, contradicting the claim (and the code's own comment that items
selected by clicking are kept). -/
theorem c5_band_deselects_clicked :
    (updateBand identRulerC5 identRulerC5 bandStateC5).selectedIdx = [0] ∧
    ((updateBand identRulerC5 identRulerC5 bandStateC5).items.map Item.selected) =
      [true, false] := by
  norm_num [updateBand, updateBandCore, bandStateC5, identRulerC5, BaseRuler.init,
    BaseRuler.getValueAt, truthyOrElse, bandIntersects, bandItemA, bandItemC,
    mapWithIndex, List.range_succ, min_def, max_def, List.filter]

/-- Restoring a snapshot tuple into an item yields exactly that tuple. -/
lemma geom_setGeom (it : Item) (g : ℚ × ℚ × ℚ × ℚ) : geom (setGeom it g) = g := by
  obtain ⟨a, b, c, d⟩ := g
  rfl

/-- Invariant maintained by the drag session for the items passed to
start_drag: the snapshots equal the start geometries, the dragged list
keeps its length, and the session stays in the dragging state. -/
def DragInv (items : List Item) (st : DragState) : Prop :=
  st.originalStates = items.map geom ∧
  st.draggedItems.length = items.length ∧
  st.dragging = true

/-- update_drag preserves the drag-session invariant: it never writes
original_states, never clears the dragging flag, and rewrites the
dragged items pairwise with their snapshots. -/
lemma updateDrag_inv (cfg : DragConfig) (pos : ℚ × ℚ) (xr yr : BaseRuler)
    {items : List Item} {st : DragState} (h : DragInv items st) :
    DragInv items (updateDrag cfg pos xr yr st) := by
  obtain ⟨h1, h2, h3⟩ := h
  unfold updateDrag
  rw [h3]
  simp only [Bool.true_eq_false, if_false]
  cases hsp : st.dragStartPos with
  | none => exact ⟨h1, h2, h3⟩
  | some p0 =>
    dsimp only
    refine ⟨h1, ?_, rfl⟩
    simp only [List.length_map, List.length_zip, h1, h2, min_self]

/-- A whole sequence of update_drag calls preserves the invariant. -/
lemma applyUpdates_inv (cfg : DragConfig) (us : List UpdateCall)
    {items : List Item} {st : DragState} (h : DragInv items st) :
    DragInv items (applyUpdates cfg us st) := by
  induction us generalizing st with
  | nil => exact h
  | cons u rest ih =>
    rw [applyUpdates, List.foldl_cons]
    exact ih (updateDrag_inv cfg u.pos u.xr u.yr h)

/-- C2: start_drag on any list of items followed by any sequence of
update_drag calls and an end_drag at which can_drop rejects: end_drag
reports failure and every dragged item is written back to its exact
snapshotted (x, y, width, height) — the returned list of (post-call)
dragged item geometries equals the original geometries, a total rollback
(the model is a total function, so no exception is possible). -/
theorem c2_reject_rollback (cfg : DragConfig) (items : List Item) (pos : ℚ × ℚ)
    (handle : Option ResizeHandle) (us : List UpdateCall) (f : List Item → Bool)
    (hc : cfg.canDrop = some f)
    (hf : f (applyUpdates cfg us (startDrag cfg items pos handle)).draggedItems = false) :
    (endDrag cfg (applyUpdates cfg us (startDrag cfg items pos handle))).1 = false ∧
    ((endDrag cfg (applyUpdates cfg us (startDrag cfg items pos handle))).2.1).map geom =
      items.map geom := by
  have hinv : DragInv items (applyUpdates cfg us (startDrag cfg items pos handle)) :=
    applyUpdates_inv cfg us ⟨rfl, rfl, rfl⟩
  set st1 := applyUpdates cfg us (startDrag cfg items pos handle) with hst1
  obtain ⟨h1, h2, h3⟩ := hinv
  have hev : evalCanDrop cfg st1.draggedItems = false := by
    rw [evalCanDrop, hc]
    exact hf
  unfold endDrag
  rw [h3]
  simp only [Bool.true_eq_false, if_false]
  simp only [hev, eq_self_iff_true, if_true]
  refine ⟨trivial, ?_⟩
  have hlen : st1.originalStates.length ≤ st1.draggedItems.length := by
    rw [h1, h2, List.length_map]
  calc ((st1.draggedItems.zip st1.originalStates).map (fun p => setGeom p.1 p.2)).map geom
      = (st1.draggedItems.zip st1.originalStates).map
          (fun p => geom (setGeom p.1 p.2)) := by rw [List.map_map]; rfl
    _ = (st1.draggedItems.zip st1.originalStates).map Prod.snd := by
        apply List.map_congr_left
        intro p _
        exact geom_setGeom p.1 p.2
    _ = st1.originalStates := List.map_snd_zip _ _ hlen
    _ = items.map geom := h1

/-- Minimal drag configuration for the C2 witness: the validator rejects
every drop. -/
def cfgC2 : DragConfig := { canDrop := some (fun _ => false) }

/-- The two items dragged in the C2 witness. -/
def itemsC2 : List Item :=
  [{ x := 1, y := 2, width := 3, height := 4 }, { x := 10, y := 20, width := 30, height := 40 }]

/-- Witness for C2: two concrete items dragged once across the identity
ruler and then dropped with a rejecting can_drop are fully rolled back
and end_drag returns false. -/
theorem c2_reject_rollback_witness :
    (endDrag cfgC2 (applyUpdates cfgC2 [⟨(57, 31), identRulerC5, identRulerC5⟩]
        (startDrag cfgC2 itemsC2 (5, 5) none))).1 = false ∧
    ((endDrag cfgC2 (applyUpdates cfgC2 [⟨(57, 31), identRulerC5, identRulerC5⟩]
        (startDrag cfgC2 itemsC2 (5, 5) none))).2.1).map geom = itemsC2.map geom :=
  c2_reject_rollback cfgC2 itemsC2 (5, 5) none
    [⟨(57, 31), identRulerC5, identRulerC5⟩] (fun _ => false) rfl rfl

/-- Resizing through the LEFT handle keeps the far (right) edge
ox + ow pixel-identical for every delta and every min/max constraint
configuration, because clamping adjusts the delta together with the
width. -/
lemma applyResize_left_edge (cfg : DragConfig) (it : Item) (dx dy ox oy ow oh : ℚ) :
    (applyResize cfg it ResizeHandle.left dx dy ox oy ow oh).x +
      (applyResize cfg it ResizeHandle.left dx dy ox oy ow oh).width = ox + ow := by
  unfold applyResize
  dsimp only
  cases hmw : (match it.caps.maxWidth with
    | some m => some m
    | none => cfg.maxWidth) with
  | none =>
    dsimp only
    split_ifs <;> dsimp <;> ring
  | some m =>
    dsimp only
    split_ifs <;> dsimp <;> ring

/-- Resizing through the RIGHT handle never writes the x coordinate. -/
lemma applyResize_right_x (cfg : DragConfig) (it : Item) (dx dy ox oy ow oh : ℚ) :
    (applyResize cfg it ResizeHandle.right dx dy ox oy ow oh).x = it.x := by
  unfold applyResize
  dsimp only
  cases hmw : (match it.caps.maxWidth with
    | some m => some m
    | none => cfg.maxWidth) with
  | none => rfl
  | some m =>
    dsimp only
    split_ifs <;> rfl

/-- The drag configuration of the C4 scenario: global min_width = 5, no
other constraints, no snaps, no hook. -/
def cfgC4 : DragConfig := { minWidth := some 5 }

/-- The item of the C4 scenario, with original geometry (20, 0, 10, 1)
and no per-item constraints. -/
def itemC4 : Item := { x := 20, y := 0, width := 10, height := 1 }

/-- C4: in a resize update with no on_drag_update hook, the LEFT handle
always keeps x + width equal to the original ox + ow (far edge fixed)
for every raw delta and snap configuration, and the RIGHT handle never
changes x (so it stays at the original ox).  In the concrete scenario
with min_width = 5 and a drag toward a would-be width of 2 (raw delta 8
on original width 10), the width is clamped to exactly 5 and x is
recomputed to 25 so that the right edge stays at 30. -/
theorem c4_resize_anchoring (cfg : DragConfig) (it : Item) (rawDx rawDy : ℚ)
    (ox oy ow oh : ℚ) (hHook : cfg.onDragUpdate = none) (hx : it.x = ox) :
    ((dragItemStep cfg (some ResizeHandle.left) rawDx rawDy it (ox, oy, ow, oh)).x +
      (dragItemStep cfg (some ResizeHandle.left) rawDx rawDy it (ox, oy, ow, oh)).width =
        ox + ow) ∧
    ((dragItemStep cfg (some ResizeHandle.right) rawDx rawDy it (ox, oy, ow, oh)).x = ox) ∧
    ((dragItemStep cfgC4 (some ResizeHandle.left) 8 0 itemC4 (20, 0, 10, 1)).x = 25 ∧
      (dragItemStep cfgC4 (some ResizeHandle.left) 8 0 itemC4 (20, 0, 10, 1)).width = 5 ∧
      (dragItemStep cfgC4 (some ResizeHandle.left) 8 0 itemC4 (20, 0, 10, 1)).x +
        (dragItemStep cfgC4 (some ResizeHandle.left) 8 0 itemC4 (20, 0, 10, 1)).width =
          20 + 10) := by
  refine ⟨?_, ?_, ?_⟩
  · simp only [dragItemStep, hHook]
    exact applyResize_left_edge cfg it _ 0 ox oy ow oh
  · simp only [dragItemStep, hHook]
    rw [applyResize_right_x cfg it _ 0 ox oy ow oh]
    exact hx
  · norm_num [dragItemStep, cfgC4, itemC4, applyResize, applySnap, orElseSnap]

/-- Witness for C4: the theorem applied at the scenario configuration
itself (no hook, item x equal to its original x). -/
theorem c4_resize_anchoring_witness :
    ((dragItemStep cfgC4 (some ResizeHandle.left) 8 0 itemC4 (20, 0, 10, 1)).x +
      (dragItemStep cfgC4 (some ResizeHandle.left) 8 0 itemC4 (20, 0, 10, 1)).width =
        20 + 10) ∧
    ((dragItemStep cfgC4 (some ResizeHandle.right) 8 0 itemC4 (20, 0, 10, 1)).x = 20) :=
  ⟨(c4_resize_anchoring cfgC4 itemC4 8 0 20 0 10 1 rfl rfl).1,
   (c4_resize_anchoring cfgC4 itemC4 8 0 20 0 10 1 rfl rfl).2.1⟩

end Sprintify
